import Mathlib

/-!
Verification of `glucose_sbi/glucose_simulator.py`.

The module is a parameter-injection and batch-orchestration layer over an
external physiological simulator.  We embed it shallowly:

* numeric parameter values are modelled as exact rationals (`Rat`); all
  concrete values appearing in the properties are exactly representable;
* a Python exception is modelled as `none` (for functions whose caller never
  sees a result on error) or as a `false` success flag paired with the state
  as it stands when the exception is raised (for in-place mutators, where the
  partially mutated object survives the exception);
* the external simulation engine (`simulate()` + `results()["CGM"]`) is
  deterministic per environment and is modelled as an explicit function
  argument `run_engine : SimObj → List Rat`;
* `pathos.multiprocessing.ProcessingPool.map` has the documented semantics of
  an order-preserving map over the input list, and is modelled as such;
* `numpy.stack` on an empty list raises `ValueError`; on a non-empty list of
  equal-length one-dimensional arrays it returns the 2-D stack.
-/

namespace GlucoseSim

/-- Whether the character list `needle` occurs at the start of `hay`. -/
def match_at : List Char → List Char → Bool
  | [], _ => true
  | _ :: _, [] => false
  | c :: cs, d :: ds => c == d && match_at cs ds

/-- Whether `needle` occurs anywhere inside `hay`; models the Python
substring test `needle in hay` on strings. -/
def has_sub (needle : List Char) : List Char → Bool
  | [] => needle.isEmpty
  | d :: ds => match_at needle (d :: ds) || has_sub needle ds

/-- The Python test `"meal" in param` used by `_separate_parameters`. -/
def has_meal (param : String) : Bool := has_sub "meal".data param.data

/-- Python `enumerate` starting at index `k` (the source uses `enumerate`,
which starts at 0). -/
def enum_from (k : Nat) : List String → List (Nat × String)
  | [] => []
  | n :: ns => (k, n) :: enum_from (k + 1) ns

/-- The Python list comprehension `[theta_list[i] for i in indices]`:
indexing past the end raises `IndexError`, modelled as `none`; evaluation is
left to right and stops at the first failing index. -/
def select_values (theta_list : List Rat) : List Nat → Option (List Rat)
  | [] => some []
  | i :: is =>
    match theta_list[i]? with
    | none => none
    | some v =>
      match select_values theta_list is with
      | none => none
      | some vs => some (v :: vs)

/-- Embedding of `_separate_parameters`: split the named parameter vector into
meal indices/values and non-meal names/values.  `none` models the
`IndexError` raised when `theta_list` is shorter than `param_names`. -/
def separate_parameters (param_names : List String) (theta_list : List Rat) :
    Option (List Nat × List Rat × List String × List Rat) :=
  let enumd := enum_from 0 param_names
  let meal_indices := (enumd.filter (fun p => has_meal p.2)).map Prod.fst
  match select_values theta_list meal_indices with
  | none => none
  | some meal_values =>
    let non_meal_indices_and_params := enumd.filter (fun p => !has_meal p.2)
    let other_params := non_meal_indices_and_params.map Prod.snd
    match select_values theta_list (non_meal_indices_and_params.map Prod.fst) with
    | none => none
    | some other_values => some (meal_indices, meal_values, other_params, other_values)

/-- Modelled from the spec: `InferredParams` (imported from
`glucose_sbi.prepare_priors`, a module of this repository that is not under
`src/`) is the inferred-parameter descriptor: an ordered sequence of
parameter names, index-aligned with every parameter vector; a leaf data
structure with no logic. -/
structure InferredParams where
  params_names : List String
deriving DecidableEq, Repr

/-- The patient object of the external simulator, as far as this module
touches it: its name and its `_params` attribute record.  A Python attribute
record maps attribute names to values; we model it as an ordered association
list with unique keys kept in insertion order. -/
structure T1DPatientModel where
  name : String
  params : List (String × Rat)
deriving DecidableEq, Repr

/-- The scenario object of the external simulator: a start time and the
ordered list of `(meal_name, amount)` pairs (field `scenario.scenario` in the
source). -/
structure CustomScenario where
  start_time : Nat
  scenario : List (String × Rat)
deriving DecidableEq, Repr

/-- The inner `T1DSimEnv` of the external simulator: patient, sensor, pump
and scenario. -/
structure T1DSimEnvCore where
  patient : T1DPatientModel
  sensor_name : String
  sensor_seed : Nat
  pump_name : String
  scenario : CustomScenario
deriving DecidableEq, Repr

/-- The runnable simulation object (`SimObj` in the source): the inner
environment, a controller, the simulation duration and the animate flag. -/
structure SimObj where
  env : T1DSimEnvCore
  controller : String
  sim_time_hours : Nat
  animate : Bool
deriving DecidableEq, Repr

/-- The `DeafultSimulationEnv` dataclass (source spelling kept): names of the
baseline patient/sensor/pump, the baseline meal scenario and the duration. -/
structure DeafultSimulationEnv where
  patient_name : String
  sensor_name : String
  pump_name : String
  scenario : List (String × Rat)
  hours : Nat
deriving DecidableEq, Repr

/-- Python `setattr` on an attribute record: when the attribute exists its
value is replaced, otherwise the attribute is silently created.  `setattr`
itself never raises for a fresh name. -/
def setattr_record (attrs : List (String × Rat)) (name : String) (value : Rat) :
    List (String × Rat) :=
  if attrs.any (fun p => p.1 == name) then
    attrs.map (fun p => if p.1 == name then (p.1, value) else p)
  else
    attrs ++ [(name, value)]

/-- Embedding of `_update_patient_parameters`: `for param, value in
zip(params, values): setattr(patient._params, param, value)`.  Python `zip`
truncates to the shorter list and the loop never raises. -/
def update_patient_parameters (attrs : List (String × Rat)) (params : List String)
    (values : List Rat) : List (String × Rat) :=
  (params.zip values).foldl (fun acc pv => setattr_record acc pv.1 pv.2) attrs

/-- Embedding of `_update_meal_parameters`: `for i, (meal_name, _) in
enumerate(scenario): scenario[i] = (meal_name, meal_values[i])`.  The loop
mutates the scenario in place, entry by entry; when `meal_values` runs out an
`IndexError` is raised at that position, leaving the earlier entries already
overwritten.  The result is the scenario as it stands when the loop ends,
paired with `true` on normal completion and `false` on `IndexError`. -/
def update_meal_parameters : List (String × Rat) → List Rat → List (String × Rat) × Bool
  | [], _ => ([], true)
  | entry :: rest, [] => (entry :: rest, false)
  | (meal_name, _) :: rest, v :: vs =>
    let r := update_meal_parameters rest vs
    ((meal_name, v) :: r.1, r.2)

/-- Embedding of `set_custom_params`: separate the named vector into meal and
non-meal parts, update the scenario when `infer_meal_params` is set and at
least one meal parameter exists, then set each non-meal name on the patient
parameter record.  The result is the environment as it stands when the call
ends, paired with `true` on normal completion and `false` when an exception
(`IndexError`) escapes; on an exception the later mutation steps do not run
but the earlier ones survive. -/
def set_custom_params (default_simulation_env : SimObj) (theta : List Rat)
    (inferred_params : InferredParams) (infer_meal_params : Bool) : SimObj × Bool :=
  let theta_list := theta
  let param_names := inferred_params.params_names
  match separate_parameters param_names theta_list with
  | none => (default_simulation_env, false)
  | some (meal_indices, meal_values, other_params, other_values) =>
    let meal_step :=
      if infer_meal_params && !meal_indices.isEmpty then
        update_meal_parameters default_simulation_env.env.scenario.scenario meal_values
      else
        (default_simulation_env.env.scenario.scenario, true)
    if meal_step.2 then
      let patient_params :=
        update_patient_parameters default_simulation_env.env.patient.params
          other_params other_values
      ({ default_simulation_env with
          env := { default_simulation_env.env with
            scenario := { default_simulation_env.env.scenario with scenario := meal_step.1 },
            patient := { default_simulation_env.env.patient with params := patient_params } } },
        true)
    else
      ({ default_simulation_env with
          env := { default_simulation_env.env with
            scenario := { default_simulation_env.env.scenario with scenario := meal_step.1 } } },
        false)

/-- Embedding of `load_default_simulation_env`.  The external catalog lookups
(`T1DPatient.withName`, …) are abstracted by `patient_catalog`, which yields
the baseline `_params` record of the named patient; the sensor seed is fixed
to 1, the controller is the basal-bolus controller, animation is off, and the
scenario starts at the current day's midnight (`start_time`, passed in
because it depends on the wall clock, not on the inputs). -/
def load_default_simulation_env (patient_catalog : String → List (String × Rat))
    (env_settings : DeafultSimulationEnv) (start_time : Nat) (hours : Nat) : SimObj :=
  { env :=
      { patient :=
          { name := env_settings.patient_name,
            params := patient_catalog env_settings.patient_name },
        sensor_name := env_settings.sensor_name,
        sensor_seed := 1,
        pump_name := env_settings.pump_name,
        scenario := { start_time := start_time, scenario := env_settings.scenario } },
    controller := "BBController",
    sim_time_hours := hours,
    animate := false }

/-- Python `copy.deepcopy` on a simulation environment: the copy is an
independent object graph.  Under value semantics the copy is the value
itself; independence holds because `set_custom_params` returns a new value
instead of writing through shared references. -/
def deepcopy (env : SimObj) : SimObj := env

/-- The loop of `create_simulation_envs_with_custom_params`, instrumented to
also return the default environment as it stands when the loop ends (it is
only ever read, never written: each iteration patches a deep copy).  The
second component is `none` when `set_custom_params` raised for some row, in
which case the whole Python call raises and returns nothing. -/
def build_envs_loop (default_simulation_env : SimObj) (inferred_params : InferredParams)
    (infer_meal_params : Bool) : List (List Rat) → SimObj × Option (List SimObj)
  | [] => (default_simulation_env, some [])
  | theta_i :: rest =>
    let custom_sim_env := deepcopy default_simulation_env
    let custom := set_custom_params custom_sim_env theta_i inferred_params infer_meal_params
    if custom.2 then
      match build_envs_loop default_simulation_env inferred_params infer_meal_params rest with
      | (d, some envs) => (d, some (custom.1 :: envs))
      | (d, none) => (d, none)
    else
      (default_simulation_env, none)

/-- Embedding of `create_simulation_envs_with_custom_params`: build one
default environment, then patch an independent deep copy of it with each row
of `theta`, in row order. -/
def create_simulation_envs_with_custom_params
    (patient_catalog : String → List (String × Rat)) (theta : List (List Rat))
    (default_settings : DeafultSimulationEnv) (inferred_params : InferredParams)
    (start_time : Nat) (hours : Nat) (infer_meal_params : Bool) : Option (List SimObj) :=
  (build_envs_loop (load_default_simulation_env patient_catalog default_settings start_time hours)
    inferred_params infer_meal_params theta).2

/-- Numeric element type of a torch tensor, as far as this module goes. -/
inductive Dtype where
  | float32
  | float64
deriving DecidableEq, Repr

/-- A torch tensor as this module observes it: its data, element type and
device placement. -/
structure Tensor where
  data : List (List Rat)
  dtype : Dtype
  device : String
deriving DecidableEq, Repr

/-- `torch.from_numpy` on a stacked float64 array: same data, dtype float64,
resident on the CPU. -/
def torch_from_numpy (a : List (List Rat)) : Tensor :=
  { data := a, dtype := Dtype.float64, device := "cpu" }

/-- Tensor `.float()`: cast to float32. -/
def Tensor.toFloat32 (t : Tensor) : Tensor := { t with dtype := Dtype.float32 }

/-- Tensor `.to(device)`: move to the given device. -/
def Tensor.toDevice (t : Tensor) (device : String) : Tensor := { t with device := device }

/-- `numpy.stack` on a list of one-dimensional arrays: raises `ValueError`
(modelled `none`) on an empty list or on arrays of unequal length; otherwise
returns the 2-D stack in input order. -/
def np_stack (results : List (List Rat)) : Option (List (List Rat)) :=
  match results with
  | [] => none
  | r :: rs => if rs.all (fun x => x.length == r.length) then some (r :: rs) else none

/-- `pathos.multiprocessing.ProcessingPool.map`: dispatches `f` over the list
across worker processes and returns the results in input order regardless of
completion order (the library's documented semantics); as a function of the
inputs it is the order-preserving map. -/
def pool_map (f : SimObj → List Rat) (xs : List SimObj) : List (List Rat) := xs.map f

/-- `tqdm` wraps an iterable for progress display and yields exactly the same
elements in the same order. -/
def tqdm_iter (xs : List SimObj) : List SimObj := xs

/-- Embedding of `simulate_glucose_dynamics`: run the external engine on the
environment and read the CGM column of its results.  The engine is the
explicit argument `run_engine`. -/
def simulate_glucose_dynamics (run_engine : SimObj → List Rat)
    (simulation_env : SimObj) : List Rat :=
  run_engine simulation_env

/-- The `pathos` branch of `simulate_batch`: pool-map the simulations, stack
the per-run series, and convert to a float32 tensor on the requested
device. -/
def simulate_batch_pathos (run_engine : SimObj → List Rat)
    (simulations : List SimObj) (device : String) : Option Tensor :=
  let results := pool_map (simulate_glucose_dynamics run_engine) simulations
  match np_stack results with
  | none => none
  | some stacked => some (((torch_from_numpy stacked).toFloat32).toDevice device)

/-- The sequential fallback branch of `simulate_batch`: list-comprehension
map over the (tqdm-wrapped) simulations, then the same stack and
conversion. -/
def simulate_batch_sequential (run_engine : SimObj → List Rat)
    (simulations : List SimObj) (device : String) : Option Tensor :=
  let results := (tqdm_iter simulations).map (simulate_glucose_dynamics run_engine)
  match np_stack results with
  | none => none
  | some stacked => some (((torch_from_numpy stacked).toFloat32).toDevice device)

/-- Embedding of `simulate_batch`: the local flag `pathos` is hardcoded to
`True`, so the pool branch is taken. -/
def simulate_batch (run_engine : SimObj → List Rat) (simulations : List SimObj)
    (device : String) : Option Tensor :=
  let pathos := true
  if pathos then simulate_batch_pathos run_engine simulations device
  else simulate_batch_sequential run_engine simulations device

/-- Embedding of `run_glucose_simulator`: build the environments, then
simulate the batch; an exception in environment construction propagates
before any simulation runs. -/
def run_glucose_simulator (run_engine : SimObj → List Rat)
    (patient_catalog : String → List (String × Rat)) (theta : List (List Rat))
    (default_settings : DeafultSimulationEnv) (inferred_params : InferredParams)
    (start_time : Nat) (hours : Nat) (device : String)
    (infer_meal_params : Bool) : Option Tensor :=
  match create_simulation_envs_with_custom_params patient_catalog theta default_settings
      inferred_params start_time hours infer_meal_params with
  | none => none
  | some envs => simulate_batch run_engine envs device

/-- Reading an attribute back from a parameter record (Python `getattr`),
used to state properties about patched records. -/
def lookup_attr (attrs : List (String × Rat)) (name : String) : Option Rat :=
  (attrs.find? (fun p => p.1 == name)).map (fun p => p.2)

/-- A concrete patient catalog used in concrete instances: the named patient
has body weight `BW = 57`. -/
def demo_catalog : String → List (String × Rat) := fun _ => [("BW", 57)]

/-- Concrete default settings with the one-meal baseline scenario
`[("breakfast", 40)]` of the spec's concrete scenario. -/
def demo_settings : DeafultSimulationEnv :=
  { patient_name := "adolescent#001", sensor_name := "Dexcom", pump_name := "Insulet",
    scenario := [("breakfast", 40)], hours := 24 }

/-- Concrete default settings with a two-meal baseline scenario. -/
def demo_settings2 : DeafultSimulationEnv :=
  { patient_name := "adolescent#001", sensor_name := "Dexcom", pump_name := "Insulet",
    scenario := [("breakfast", 40), ("lunch", 70)], hours := 24 }

/-- The concrete default environment built from `demo_settings`. -/
def demo_env : SimObj := load_default_simulation_env demo_catalog demo_settings 0 24

/-- The concrete default environment built from `demo_settings2`. -/
def demo_env2 : SimObj := load_default_simulation_env demo_catalog demo_settings2 0 24

/-- The inferred-parameter descriptor of the spec's concrete scenario. -/
def demo_inferred : InferredParams := { params_names := ["BW", "meal_1"] }

/-- Every index produced by `enum_from k` is below `k` plus the list length. -/
theorem enum_from_fst_lt {k : Nat} {names : List String} {p : Nat × String}
    (h : p ∈ enum_from k names) : p.1 < k + names.length := by
  induction names generalizing k with
  | nil => simp [enum_from] at h
  | cons n ns ih =>
    simp only [enum_from, List.mem_cons] at h
    rcases h with h | h
    · subst h
      simp only [List.length_cons]
      omega
    · have := ih h
      simp only [List.length_cons]
      omega

/-- Every name produced by `enum_from k` is a member of the list. -/
theorem enum_from_snd_mem {k : Nat} {names : List String} {p : Nat × String}
    (h : p ∈ enum_from k names) : p.2 ∈ names := by
  induction names generalizing k with
  | nil => simp [enum_from] at h
  | cons n ns ih =>
    simp only [enum_from, List.mem_cons] at h
    rcases h with h | h
    · subst h
      simp
    · exact List.mem_cons_of_mem _ (ih h)

/-- Every in-range index is listed by `enum_from k` with some name. -/
theorem enum_from_mem_of_lt {k j : Nat} {names : List String}
    (h : j < names.length) : ∃ s, (k + j, s) ∈ enum_from k names := by
  induction names generalizing k j with
  | nil => simp at h
  | cons n ns ih =>
    cases j with
    | zero => exact ⟨n, by simp [enum_from]⟩
    | succ m =>
      obtain ⟨s, hs⟩ := @ih (k + 1) m (by simpa using h)
      refine ⟨s, ?_⟩
      have heq : k + (m + 1) = k + 1 + m := by omega
      simp only [enum_from, List.mem_cons]
      right
      rw [heq]
      exact hs

/-- The Python list comprehension over indices raises `IndexError` when some
listed index is out of range. -/
theorem select_values_eq_none {theta : List Rat} {is : List Nat} {i : Nat}
    (hi : i ∈ is) (hlen : theta.length ≤ i) :
    select_values theta is = none := by
  induction is with
  | nil => simp at hi
  | cons j js ih =>
    simp only [List.mem_cons] at hi
    rcases hi with rfl | hi
    · simp [select_values, List.getElem?_eq_none hlen]
    · cases hj : theta[j]? with
      | none => simp [select_values, hj]
      | some v => simp [select_values, hj, ih hi]

/-- Indexing only below `n` cannot tell `theta` from its first `n` entries. -/
theorem select_values_take {theta : List Rat} {n : Nat} {is : List Nat}
    (h : ∀ i ∈ is, i < n) :
    select_values (theta.take n) is = select_values theta is := by
  induction is with
  | nil => rfl
  | cons j js ih =>
    have hj : j < n := h j (by simp)
    have hrest : ∀ i ∈ js, i < n := fun i hi => h i (by simp [hi])
    simp only [select_values, List.getElem?_take, if_pos hj, ih hrest]

/-- A theta row shorter than the name list makes `_separate_parameters`
raise, before anything is mutated. -/
theorem separate_parameters_eq_none {param_names : List String} {theta : List Rat}
    (h : theta.length < param_names.length) :
    separate_parameters param_names theta = none := by
  obtain ⟨s, hs⟩ := @enum_from_mem_of_lt 0 theta.length param_names h
  rw [Nat.zero_add] at hs
  by_cases hm : has_meal s
  · have hidx : theta.length ∈
        ((enum_from 0 param_names).filter (fun p => has_meal p.2)).map Prod.fst :=
      List.mem_map.mpr ⟨(theta.length, s), List.mem_filter.mpr ⟨hs, hm⟩, rfl⟩
    have hsel := select_values_eq_none hidx (Nat.le_refl _)
    simp [separate_parameters, hsel]
  · have hidx : theta.length ∈
        ((enum_from 0 param_names).filter (fun p => !has_meal p.2)).map Prod.fst :=
      List.mem_map.mpr ⟨(theta.length, s), List.mem_filter.mpr ⟨hs, by simp [hm]⟩, rfl⟩
    have hsel := select_values_eq_none hidx (Nat.le_refl _)
    simp only [separate_parameters]
    split
    · rfl
    · simp [hsel]

/-- When `_separate_parameters` returns, its meal-index and non-meal-name
components are the corresponding filters of the enumerated name list. -/
theorem separate_parameters_some_shape {param_names : List String} {theta : List Rat}
    {mi : List Nat} {mv : List Rat} {op : List String} {ov : List Rat}
    (h : separate_parameters param_names theta = some (mi, mv, op, ov)) :
    mi = ((enum_from 0 param_names).filter (fun p => has_meal p.2)).map Prod.fst ∧
    op = ((enum_from 0 param_names).filter (fun p => !has_meal p.2)).map Prod.snd := by
  simp only [separate_parameters] at h
  split at h
  · exact Option.noConfusion h
  · split at h
    · exact Option.noConfusion h
    · simp only [Option.some.injEq, Prod.mk.injEq] at h
      exact ⟨h.1.symm, h.2.2.1.symm⟩

/-- Truncating the theta row to the name-list length does not change
`_separate_parameters`. -/
theorem separate_parameters_take {param_names : List String} {theta : List Rat} :
    separate_parameters param_names (theta.take param_names.length)
      = separate_parameters param_names theta := by
  have hmeal : ∀ i ∈ ((enum_from 0 param_names).filter (fun p => has_meal p.2)).map Prod.fst,
      i < param_names.length := by
    intro i hi
    obtain ⟨p, hp, rfl⟩ := List.mem_map.mp hi
    have := enum_from_fst_lt (List.mem_filter.mp hp).1
    simpa using this
  have hnon : ∀ i ∈ ((enum_from 0 param_names).filter (fun p => !has_meal p.2)).map Prod.fst,
      i < param_names.length := by
    intro i hi
    obtain ⟨p, hp, rfl⟩ := List.mem_map.mp hi
    have := enum_from_fst_lt (List.mem_filter.mp hp).1
    simpa using this
  simp only [separate_parameters, select_values_take hmeal, select_values_take hnon]

/-- Fewer meal values than scenario entries: the in-place loop overwrites the
first `vs.length` amounts and then raises, leaving the tail untouched. -/
theorem update_meal_parameters_short {s : List (String × Rat)} {vs : List Rat}
    (h : vs.length < s.length) :
    update_meal_parameters s vs
      = ((s.zip vs).map (fun p => (p.1.1, p.2)) ++ s.drop vs.length, false) := by
  induction s generalizing vs with
  | nil => simp at h
  | cons e rest ih =>
    cases vs with
    | nil => simp [update_meal_parameters]
    | cons v vs =>
      obtain ⟨n, a⟩ := e
      have hlt : vs.length < rest.length := by simpa using h
      simp [update_meal_parameters, ih hlt]

/-- When every name avoids the substring "meal", the meal filter of the
enumerated names is empty. -/
theorem enum_filter_meal_nil {names : List String} {k : Nat}
    (h : names.all (fun n => !has_meal n) = true) :
    (enum_from k names).filter (fun p => has_meal p.2) = [] := by
  rw [List.filter_eq_nil_iff]
  intro p hp
  have := List.all_eq_true.mp h p.2 (enum_from_snd_mem hp)
  simpa using this

/-- When every name has the substring "meal", the non-meal filter of the
enumerated names is empty. -/
theorem enum_filter_non_meal_nil {names : List String} {k : Nat}
    (h : names.all (fun n => has_meal n) = true) :
    (enum_from k names).filter (fun p => !has_meal p.2) = [] := by
  rw [List.filter_eq_nil_iff]
  intro p hp
  have := List.all_eq_true.mp h p.2 (enum_from_snd_mem hp)
  simpa using this

/-- The default environment threaded through the build loop is returned
unchanged: every iteration patches a deep copy, never the default itself. -/
theorem build_envs_loop_fst (d : SimObj) (ip : InferredParams) (imp : Bool) :
    ∀ rows : List (List Rat), (build_envs_loop d ip imp rows).1 = d := by
  intro rows
  induction rows with
  | nil => rfl
  | cons r rest ih =>
    simp only [build_envs_loop, deepcopy]
    split
    · split
      · rename_i d2 envs heq
        rw [heq] at ih
        simpa using ih
      · rename_i d2 heq
        rw [heq] at ih
        simpa using ih
    · rfl

/-- When the build loop returns a list, it is the row-order map of patching
the default environment with each row. -/
theorem build_envs_loop_some {d : SimObj} {ip : InferredParams} {imp : Bool} :
    ∀ {rows : List (List Rat)} {envs : List SimObj},
      (build_envs_loop d ip imp rows).2 = some envs →
      envs = rows.map (fun r => (set_custom_params d r ip imp).1) := by
  intro rows
  induction rows with
  | nil =>
    intro envs h
    simp only [build_envs_loop, Option.some.injEq] at h
    simp [← h]
  | cons r rest ih =>
    intro envs h
    simp only [build_envs_loop, deepcopy] at h
    split at h
    · split at h
      · rename_i d2 es heq
        simp only [Option.some.injEq] at h
        have hes : es = rest.map (fun r => (set_custom_params d r ip imp).1) :=
          ih (by rw [heq])
        rw [← h, hes]
        simp
      · exact Option.noConfusion h
    · exact Option.noConfusion h

/-- C1: with `params_names = ["BW", "meal_1"]`, the default scenario
`[("breakfast", 40)]`, theta row `[70, 60]` and `infer_meal_params = true`,
the patch completes normally, the patched environment's patient parameter
record has attribute `BW = 70`, and its scenario is `[("breakfast", 60)]`. -/
theorem set_custom_params_concrete_bw_meal :
    (set_custom_params demo_env [70, 60] demo_inferred true).2 = true ∧
    lookup_attr (set_custom_params demo_env [70, 60] demo_inferred true).1.env.patient.params
      "BW" = some 70 ∧
    (set_custom_params demo_env [70, 60] demo_inferred true).1.env.scenario.scenario
      = [("breakfast", 60)] := by
  decide

/-- C6: building a batch never mutates the shared default environment: the
default built by `load_default_simulation_env` is threaded through the whole
loop of `create_simulation_envs_with_custom_params` (each iteration patching
a deep copy) and comes out equal to itself, for every theta matrix, so two
batches built from the same settings start from identical baselines. -/
theorem build_batch_preserves_default_env
    (patient_catalog : String → List (String × Rat))
    (default_settings : DeafultSimulationEnv) (start_time hours : Nat)
    (inferred_params : InferredParams) (infer_meal_params : Bool)
    (theta : List (List Rat)) :
    (build_envs_loop
        (load_default_simulation_env patient_catalog default_settings start_time hours)
        inferred_params infer_meal_params theta).1
      = load_default_simulation_env patient_catalog default_settings start_time hours :=
  build_envs_loop_fst _ _ _ _

/-- C5 counterexample: `simulate_batch` on the empty environment list does
not return an empty result batch: `np.stack` of an empty list raises
`ValueError`, so the call raises. -/
theorem simulate_batch_empty_raises :
    simulate_batch (fun _ => [120]) [] "cpu" = none := rfl

/-- C5 (amended): a batch of size 1 returns a valid one-row result batch; a
batch of size 0 raises (`np.stack` of the empty result list) instead of
returning an empty batch, and the worker pool is entered regardless. -/
theorem simulate_batch_size_one_and_zero (run_engine : SimObj → List Rat)
    (env : SimObj) (device : String) :
    simulate_batch run_engine [env] device
        = some { data := [run_engine env], dtype := Dtype.float32, device := device } ∧
    simulate_batch run_engine [] device = none := by
  constructor <;> rfl

/-- C8: the pathos pool branch and the sequential fallback branch of
`simulate_batch` produce identical result batches for every environment list,
engine and device: the pool map preserves input order, so both branches stack
the same per-run series. -/
theorem pathos_branch_eq_sequential_branch (run_engine : SimObj → List Rat)
    (simulations : List SimObj) (device : String) :
    simulate_batch_pathos run_engine simulations device
      = simulate_batch_sequential run_engine simulations device := rfl

/-- C9: whenever `simulate_batch` returns a tensor, that tensor resides on
the device passed by the caller and has the float32 element type produced by
the final `.float().to(device)` conversion. -/
theorem simulate_batch_device_and_dtype (run_engine : SimObj → List Rat)
    (simulations : List SimObj) (device : String) (t : Tensor)
    (h : simulate_batch run_engine simulations device = some t) :
    t.device = device ∧ t.dtype = Dtype.float32 := by
  simp only [simulate_batch, simulate_batch_pathos, if_true] at h
  split at h
  · exact Option.noConfusion h
  · rename_i stacked heq
    obtain rfl := (Option.some.inj h).symm
    exact ⟨rfl, rfl⟩

/-- Witness for C9 at a concrete batch of one environment. -/
theorem simulate_batch_device_and_dtype_witness :
    ({ data := [[120]], dtype := Dtype.float32, device := "cuda" } : Tensor).device = "cuda" ∧
    ({ data := [[120]], dtype := Dtype.float32, device := "cuda" } : Tensor).dtype
      = Dtype.float32 :=
  simulate_batch_device_and_dtype (fun _ => [120]) [demo_env] "cuda" _ rfl

/-- C2 counterexample: a theta matrix of shape (1, 1) with P = 1 matching
`params_names = ["meal_1"]`, a two-meal baseline scenario and
`infer_meal_params = true` makes the build raise (IndexError in the meal
update), so no list of environments is returned at all. -/
theorem create_envs_meal_shortfall_raises :
    create_simulation_envs_with_custom_params demo_catalog [[60]] demo_settings2
      { params_names := ["meal_1"] } 0 24 true = none := by
  decide

/-- C2 (amended): whenever `create_simulation_envs_with_custom_params`
returns, it returns exactly N environments for N input rows, and the i-th
returned environment is the default patched with the i-th row (output order
equals input row order); a row whose patch raises makes the whole call raise
instead of returning. -/
theorem create_envs_returns_row_order
    (patient_catalog : String → List (String × Rat)) (theta : List (List Rat))
    (default_settings : DeafultSimulationEnv) (inferred_params : InferredParams)
    (start_time hours : Nat) (infer_meal_params : Bool) (envs : List SimObj)
    (h : create_simulation_envs_with_custom_params patient_catalog theta default_settings
        inferred_params start_time hours infer_meal_params = some envs) :
    envs.length = theta.length ∧
    envs = theta.map (fun row =>
      (set_custom_params
        (load_default_simulation_env patient_catalog default_settings start_time hours)
        row inferred_params infer_meal_params).1) := by
  simp only [create_simulation_envs_with_custom_params] at h
  have hmap := build_envs_loop_some h
  exact ⟨by rw [hmap, List.length_map], hmap⟩

/-- Witness for C2 at the concrete one-row theta matrix of the spec's
concrete scenario. -/
theorem create_envs_returns_row_order_witness :
    [(set_custom_params demo_env [70, 60] demo_inferred true).1].length
        = ([[(70 : Rat), 60]]).length ∧
    [(set_custom_params demo_env [70, 60] demo_inferred true).1]
        = ([[(70 : Rat), 60]]).map (fun row =>
            (set_custom_params demo_env row demo_inferred true).1) :=
  create_envs_returns_row_order demo_catalog [[70, 60]] demo_settings demo_inferred
    0 24 true _ (by decide)

/-- C3 counterexample: patching with the unknown non-meal parameter name "CF"
raises no ConfigurationError/AttributeError-equivalent: the call completes
normally and `setattr` silently creates the attribute on the patient
parameter record. -/
theorem unknown_name_raises_nothing :
    (set_custom_params demo_env [5] { params_names := ["CF"] } false).2 = true ∧
    (set_custom_params demo_env [5] { params_names := ["CF"] } false).1.env.patient.params
      = [("BW", 57), ("CF", 5)] := by
  decide

/-- C3 (amended): for a non-meal parameter name that is not an existing
attribute of the patient's parameter record, the patcher raises nothing:
`setattr` creates the attribute with the supplied value, the scenario is left
untouched, and the call completes normally, so nothing stops the environment
from reaching `simulate()`. -/
theorem unknown_attr_silently_created (env : SimObj) (name : String) (v : Rat)
    (infer_meal_params : Bool) (hm : has_meal name = false)
    (hfresh : env.env.patient.params.all (fun p => !(p.1 == name)) = true) :
    (set_custom_params env [v] { params_names := [name] } infer_meal_params).2 = true ∧
    (set_custom_params env [v] { params_names := [name] } infer_meal_params).1.env.patient.params
      = env.env.patient.params ++ [(name, v)] ∧
    (set_custom_params env [v] { params_names := [name] } infer_meal_params).1.env.scenario.scenario
      = env.env.scenario.scenario := by
  have hsep : separate_parameters [name] [v] = some ([], [], [name], [v]) := by
    simp [separate_parameters, enum_from, select_values, List.filter_cons, hm]
  have hany : env.env.patient.params.any (fun p => p.1 == name) = false := by
    rw [List.any_eq_false]
    intro x hx
    have := List.all_eq_true.mp hfresh x hx
    simpa using this
  refine ⟨?_, ?_, ?_⟩ <;>
    simp [set_custom_params, hsep, update_patient_parameters, setattr_record, hany]

/-- Witness for C3 at a concrete environment and the fresh name "XYZ". -/
theorem unknown_attr_silently_created_witness :
    (set_custom_params demo_env [5] { params_names := ["XYZ"] } false).2 = true ∧
    (set_custom_params demo_env [5] { params_names := ["XYZ"] } false).1.env.patient.params
      = demo_env.env.patient.params ++ [("XYZ", 5)] ∧
    (set_custom_params demo_env [5] { params_names := ["XYZ"] } false).1.env.scenario.scenario
      = demo_env.env.scenario.scenario :=
  unknown_attr_silently_created demo_env "XYZ" 5 false (by decide) (by decide)

/-- C4 counterexample: (i) a theta row longer than `params_names` (lengths
differ) raises nothing at all, and (ii) with `infer_meal_params = true` and
fewer meal values (one) than scenario entries (two), the error is raised only
after the first scenario entry has been overwritten, producing a partially
patched environment. -/
theorem no_dimension_error_and_mutated_state :
    (set_custom_params demo_env [70, 99] { params_names := ["BW"] } false).2 = true ∧
    set_custom_params demo_env2 [60] { params_names := ["meal_1"] } true
      = ({ demo_env2 with env := { demo_env2.env with
            scenario := { demo_env2.env.scenario with
              scenario := [("breakfast", 60), ("lunch", 70)] } } }, false) := by
  decide

/-- C4 (amended): a theta row shorter than `params_names` raises an
IndexError during parameter separation, before any mutation, so the
environment is returned unchanged; but when `infer_meal_params` is true and
there are fewer meal values than scenario entries, the meal update raises
only after overwriting the first `vs.length` amounts, so a partially patched
scenario survives; longer rows and surplus meal values raise nothing. -/
theorem length_mismatch_raising (env : SimObj) (theta : List Rat)
    (inferred_params : InferredParams) (infer_meal_params : Bool)
    (scn : List (String × Rat)) (vs : List Rat) :
    (theta.length < inferred_params.params_names.length →
      set_custom_params env theta inferred_params infer_meal_params = (env, false)) ∧
    (vs.length < scn.length →
      update_meal_parameters scn vs
        = ((scn.zip vs).map (fun p => (p.1.1, p.2)) ++ scn.drop vs.length, false)) := by
  constructor
  · intro h
    have hsep := separate_parameters_eq_none h
    simp [set_custom_params, hsep]
  · exact fun h => update_meal_parameters_short h

/-- Witness for C4 at a concrete short theta row and a concrete short meal
value list. -/
theorem length_mismatch_raising_witness :
    set_custom_params demo_env [] { params_names := ["BW"] } false = (demo_env, false) ∧
    update_meal_parameters [("breakfast", 40), ("lunch", 70)] [60]
      = ([("breakfast", 60), ("lunch", 70)], false) := by
  have h := length_mismatch_raising demo_env [] { params_names := ["BW"] } false
    [("breakfast", 40), ("lunch", 70)] [60]
  exact ⟨h.1 (by decide), (h.2 (by decide)).trans (by decide)⟩

/-- C7: when `infer_meal_params` is false, or when no parameter name has the
substring "meal", the environment's meal scenario is left completely
unchanged; and when every parameter name has the substring "meal" (the
non-meal category is empty), the patient parameter record is left completely
unchanged. -/
theorem patch_frame_effects (env : SimObj) (theta : List Rat)
    (inferred_params : InferredParams) (infer_meal_params : Bool) :
    ((infer_meal_params = false ∨
        inferred_params.params_names.all (fun n => !has_meal n) = true) →
      (set_custom_params env theta inferred_params infer_meal_params).1.env.scenario.scenario
        = env.env.scenario.scenario) ∧
    (inferred_params.params_names.all (fun n => has_meal n) = true →
      (set_custom_params env theta inferred_params infer_meal_params).1.env.patient.params
        = env.env.patient.params) := by
  constructor
  · intro himp
    cases hsep : separate_parameters inferred_params.params_names theta with
    | none => simp [set_custom_params, hsep]
    | some quad =>
      obtain ⟨mi, mv, op, ov⟩ := quad
      have hshape := separate_parameters_some_shape hsep
      have hcond : (infer_meal_params && !mi.isEmpty) = false := by
        rcases himp with rfl | hall
        · rfl
        · rw [hshape.1, enum_filter_meal_nil hall]
          simp
      simp [set_custom_params, hsep, hcond]
  · intro hall
    cases hsep : separate_parameters inferred_params.params_names theta with
    | none => simp [set_custom_params, hsep]
    | some quad =>
      obtain ⟨mi, mv, op, ov⟩ := quad
      have hshape := separate_parameters_some_shape hsep
      have hop : op = [] := by
        rw [hshape.2, enum_filter_non_meal_nil hall]
        rfl
      subst hop
      simp only [set_custom_params, hsep]
      split
      · split
        · simp [update_patient_parameters]
        · simp
      · split
        · simp [update_patient_parameters]
        · simp

/-- Witness for C7: non-meal-only patch leaves the scenario alone, meal-only
patch leaves the patient record alone, at concrete inputs. -/
theorem patch_frame_effects_witness :
    (set_custom_params demo_env [70] { params_names := ["BW"] } false).1.env.scenario.scenario
      = demo_env.env.scenario.scenario ∧
    (set_custom_params demo_env2 [60, 70]
        { params_names := ["meal_1", "meal_2"] } true).1.env.patient.params
      = demo_env2.env.patient.params := by
  constructor
  · exact (patch_frame_effects demo_env [70] { params_names := ["BW"] } false).1 (Or.inl rfl)
  · exact (patch_frame_effects demo_env2 [60, 70]
      { params_names := ["meal_1", "meal_2"] } true).2 (by decide)

/-- C10 counterexample: a call whose theta row has more entries than
`params_names` can still raise: with `params_names = ["meal_1"]`, theta row
`[60, 99]`, `infer_meal_params = true` and a two-meal baseline scenario, the
meal update raises an IndexError, so it is not true that no error is raised
on every such call. -/
theorem surplus_theta_can_still_raise :
    (set_custom_params demo_env2 [60, 99] { params_names := ["meal_1"] } true).2 = false := by
  decide

/-- C10 (amended): surplus trailing theta entries are silently ignored: every
value read from theta is selected by the index of a name in `params_names`,
so a call whose theta row has at least that many entries behaves exactly as
the call with the row truncated to `params_names.length` — same resulting
environment and same raising behavior; the surplus entries never themselves
cause an error or affect the environment. -/
theorem surplus_theta_truncates (env : SimObj) (theta : List Rat)
    (inferred_params : InferredParams) (infer_meal_params : Bool)
    (_h : inferred_params.params_names.length ≤ theta.length) :
    set_custom_params env theta inferred_params infer_meal_params
      = set_custom_params env (theta.take inferred_params.params_names.length)
          inferred_params infer_meal_params := by
  simp only [set_custom_params]
  rw [separate_parameters_take]

/-- Witness for C10 at a concrete surplus theta row. -/
theorem surplus_theta_truncates_witness :
    set_custom_params demo_env [70, 99] { params_names := ["BW"] } false
      = set_custom_params demo_env ([70, 99].take 1) { params_names := ["BW"] } false :=
  surplus_theta_truncates demo_env [70, 99] { params_names := ["BW"] } false (by decide)

end GlucoseSim
